/-
Verification of the AiryWaves1D repository: a one-dimensional linear (Airy)
wave simulator.  The wave kinematics live in `airy_waves/sim.py` and the
pygame renderer in `airy_waves/drawer.py`.  Floating-point arithmetic is
embedded as real arithmetic; Python methods that can raise are embedded as
`Except`-valued functions.
-/
import Mathlib

namespace AiryWavesSpec

/-- Errors named by the specification's error-handling design, together with
the Python `ZeroDivisionError` that the constructor's float division can
actually raise. -/
inductive WaveError where
  | InvalidParameter
  | InvalidArgument
  | ZeroDivision
  deriving DecidableEq

/-- State of an `AiryWaves` object (`sim.py`, class `AiryWaves`): the four
constructor parameters, the derived wavenumber `k` and angular frequency
`omega`, and the current simulation time `t`. -/
structure AiryWaves where
  a : ℝ
  wavelength : ℝ
  h : ℝ
  g : ℝ
  k : ℝ
  omega : ℝ
  t : ℝ

/-- `sim.py` line 36: `self.k = 2 * np.pi / wavelength`. -/
noncomputable def waveNumber (wavelength : ℝ) : ℝ :=
  2 * Real.pi / wavelength

/-- `sim.py` lines 37-39:
`self.omega = np.sqrt(self.g * self.k * np.tanh(self.k * self.h))`. -/
noncomputable def angularFrequency (wavelength water_depth gravity : ℝ) : ℝ :=
  Real.sqrt (gravity * waveNumber wavelength *
    Real.tanh (waveNumber wavelength * water_depth))

/-- `AiryWaves.__init__` (`sim.py` lines 19-40): stores the four parameters,
computes `k` and `omega`, and sets `t = 0`.  The body performs no checks. -/
noncomputable def AiryWaves.init
    (amplitude wavelength water_depth gravity : ℝ) : AiryWaves :=
  { a := amplitude
    wavelength := wavelength
    h := water_depth
    g := gravity
    k := waveNumber wavelength
    omega := angularFrequency wavelength water_depth gravity
    t := 0 }

/-- The constructor viewed as a fallible operation (a Python `__init__` may
raise).  The body of `AiryWaves.__init__` contains no validation, but the
Python float division `2 * np.pi / wavelength` (`sim.py` line 36) raises
`ZeroDivisionError` when `wavelength = 0`; every other operation in the body
is a total numpy call, so that is the only failure path. -/
noncomputable def AiryWaves.initE
    (amplitude wavelength water_depth gravity : ℝ) :
    Except WaveError AiryWaves :=
  if wavelength = 0 then Except.error WaveError.ZeroDivision
  else Except.ok (AiryWaves.init amplitude wavelength water_depth gravity)

/-- `AiryWaves.update` (`sim.py` lines 42-49): `self.t = t`. -/
noncomputable def AiryWaves.update (w : AiryWaves) (t : ℝ) : AiryWaves :=
  { w with t := t }

/-- `static_get_water_height` (`sim.py` lines 77-92):
`wave.a * np.cos(wave.k * x - wave.omega * wave.t)`. -/
noncomputable def static_get_water_height (x : ℝ) (wave : AiryWaves) : ℝ :=
  wave.a * Real.cos (wave.k * x - wave.omega * wave.t)

/-- `static_get_water_velocity` (`sim.py` lines 95-138): zero above the free
surface, otherwise the finite-depth linear-wave-theory velocity. -/
noncomputable def static_get_water_velocity (x y : ℝ) (wave : AiryWaves) :
    ℝ × ℝ :=
  if y > static_get_water_height x wave then (0.0, 0.0)
  else
    (wave.a * wave.g * wave.k / wave.omega *
        (Real.cosh (wave.k * (y + wave.h)) / Real.cosh (wave.k * wave.h)) *
        Real.cos (wave.k * x - wave.omega * wave.t),
      wave.a * wave.g * wave.k / wave.omega *
        (Real.sinh (wave.k * (y + wave.h)) / Real.cosh (wave.k * wave.h)) *
        Real.sin (wave.k * x - wave.omega * wave.t))

/-- Method `AiryWaves.get_water_height` (`sim.py` lines 51-61). -/
noncomputable def AiryWaves.get_water_height (w : AiryWaves) (x : ℝ) : ℝ :=
  static_get_water_height x w

/-- Method `AiryWaves.get_water_velocity` (`sim.py` lines 63-74). -/
noncomputable def AiryWaves.get_water_velocity (w : AiryWaves) (x y : ℝ) :
    ℝ × ℝ :=
  static_get_water_velocity x y w

/-- `AiryWaves.get_water_height` as a state transformer: the method body is
`return static_get_water_height(x, self)` with no assignment to `self`, so
the post-state is the pre-state. -/
noncomputable def AiryWaves.get_water_height_call (w : AiryWaves) (x : ℝ) :
    ℝ × AiryWaves :=
  (static_get_water_height x w, w)

/-- `AiryWaves.get_water_velocity` as a state transformer: the method body is
`return static_get_water_velocity(x, y, self)` with no assignment to `self`,
so the post-state is the pre-state. -/
noncomputable def AiryWaves.get_water_velocity_call (w : AiryWaves) (x y : ℝ) :
    (ℝ × ℝ) × AiryWaves :=
  (static_get_water_velocity x y w, w)

/-- A concrete wave built from the repository's default parameters
(`amplitude=1.0, wavelength=10.0, water_depth=50.0, gravity=9.81`). -/
noncomputable def sampleWave : AiryWaves :=
  AiryWaves.init 1 10 50 (981 / 100)

/-- A concrete wave whose relative depth `k*h = 51` exceeds the threshold 50
named by the specification: amplitude `1`, wavelength `2π` (so `k = 1`),
depth `51`, gravity `9.81`. -/
noncomputable def deepWave : AiryWaves :=
  AiryWaves.init 1 (2 * Real.pi) 51 (981 / 100)

/-- Modelled from the spec: `VelocityAt(x, y, t)`, the stateless variant of
the velocity query taking an explicit time argument in place of the stored
`t`.  The repository sources contain no force-estimation code; this and
`forceOnMass` are reconstructed from the specification's words. -/
noncomputable def velocityAt (w : AiryWaves) (x y tq : ℝ) : ℝ × ℝ :=
  static_get_water_velocity x y { w with t := tq }

/-- Modelled from the spec: `ForceOnMass(x, y, mass, dt)` approximates the
fluid-induced force on a point mass by a forward finite difference of
velocity in time at the field's current stored `t`, failing with
`InvalidArgument` when `dt = 0`.  Missing from the repository sources. -/
noncomputable def forceOnMass (w : AiryWaves) (x y mass dt : ℝ) :
    Except WaveError (ℝ × ℝ) :=
  if dt = 0 then Except.error WaveError.InvalidArgument
  else
    Except.ok
      (mass * ((velocityAt w x y (w.t + dt)).1 -
          (velocityAt w x y w.t).1) / dt,
        mass * ((velocityAt w x y (w.t + dt)).2 -
          (velocityAt w x y w.t).2) / dt)

/-- State of an `AiryWavesDrawer` object (`drawer.py`, class
`AiryWavesDrawer`), minus the pygame handles: display window, grid sizes,
simulation-space window and the derived pixel scale factors. -/
structure AiryWavesDrawer where
  wave : AiryWaves
  width : ℕ
  height : ℕ
  arrow_scale : ℝ
  grid_x : ℕ
  grid_y : ℕ
  x_min : ℝ
  x_max : ℝ
  margin : ℝ
  y_top : ℝ
  y_bottom : ℝ
  scale_x : ℝ
  scale_y : ℝ

/-- `AiryWavesDrawer.__init__` (`drawer.py` lines 13-54): horizontal span
`[0, 2*wavelength]`, vertical span `[-h, a + margin]` with `margin = 1.0`,
and uniform scale factors to pixels. -/
noncomputable def AiryWavesDrawer.init (wave : AiryWaves)
    (width height : ℕ) (arrow_scale : ℝ) (grid_x grid_y : ℕ) :
    AiryWavesDrawer :=
  { wave := wave
    width := width
    height := height
    arrow_scale := arrow_scale
    grid_x := grid_x
    grid_y := grid_y
    x_min := 0
    x_max := 2 * wave.wavelength
    margin := 1
    y_top := wave.a + 1
    y_bottom := -wave.h
    scale_x := (width : ℝ) / (2 * wave.wavelength - 0)
    scale_y := (height : ℝ) / (wave.a + 1 - -wave.h) }

/-- Horizontal coordinate of lattice column `i` in `AiryWavesDrawer.draw`
(`drawer.py` lines 96-99): uniformly spaced across the horizontal span. -/
noncomputable def AiryWavesDrawer.latticeX (d : AiryWavesDrawer) (i : ℕ) :
    ℝ :=
  d.x_min + (i : ℝ) * (d.x_max - d.x_min) / ((d.grid_x : ℝ) - 1)

/-- Vertical coordinate of lattice row `j` in `AiryWavesDrawer.draw`
(`drawer.py` lines 100-103): square-law spacing `p = j/(grid_y-1)`,
`y = y_top - (y_top - y_bottom) * p^2`, concentrating rows near the top. -/
noncomputable def AiryWavesDrawer.latticeY (d : AiryWavesDrawer) (j : ℕ) :
    ℝ :=
  d.y_top - (d.y_top - d.y_bottom) * ((j : ℝ) / ((d.grid_y : ℝ) - 1)) ^ 2

/-- The velocity-arrow start points produced by one frame of
`AiryWavesDrawer.draw` (`drawer.py` lines 94-118): the loop visits every
lattice point and draws an arrow exactly when `y <= free_surface`. -/
noncomputable def AiryWavesDrawer.drawnArrows (d : AiryWavesDrawer) :
    List (ℝ × ℝ) :=
  (List.range d.grid_x).flatMap fun i =>
    (List.range d.grid_y).filterMap fun j =>
      if d.latticeY j ≤ d.wave.get_water_height (d.latticeX i) then
        some (d.latticeX i, d.latticeY j)
      else none

/-- A concrete wave for the renderer claims: amplitude `1`, wavelength `10`,
depth `2`, gravity `9.81`, at time `0`. -/
noncomputable def cexWave : AiryWaves :=
  AiryWaves.init 1 10 2 (981 / 100)

/-- A concrete drawer over `cexWave` with a `20 × 3` velocity grid, built
with the repository's default window and arrow-scale settings. -/
noncomputable def cexDrawer : AiryWavesDrawer :=
  AiryWavesDrawer.init cexWave 800 600 (1 / 2) 20 3

/-- The finite-depth branch of `static_get_water_velocity`, taken whenever the
query point is at or below the free surface. -/
theorem static_get_water_velocity_of_le (x y : ℝ) (w : AiryWaves)
    (hy : y ≤ static_get_water_height x w) :
    static_get_water_velocity x y w =
      (w.a * w.g * w.k / w.omega *
          (Real.cosh (w.k * (y + w.h)) / Real.cosh (w.k * w.h)) *
          Real.cos (w.k * x - w.omega * w.t),
        w.a * w.g * w.k / w.omega *
          (Real.sinh (w.k * (y + w.h)) / Real.cosh (w.k * w.h)) *
          Real.sin (w.k * x - w.omega * w.t)) := by
  unfold static_get_water_velocity
  rw [if_neg (not_lt.mpr hy)]

/-- Positivity of the wavenumber for a positive wavelength. -/
theorem waveNumber_pos (wl : ℝ) (hw : 0 < wl) : 0 < waveNumber wl := by
  unfold waveNumber
  positivity

/-- Positivity of the angular frequency for positive wavelength, depth and
gravity: the dispersion relation gives a real positive `omega`. -/
theorem angularFrequency_pos (wl dep grav : ℝ)
    (hw : 0 < wl) (hd : 0 < dep) (hg : 0 < grav) :
    0 < angularFrequency wl dep grav := by
  have hk := waveNumber_pos wl hw
  have ht : 0 < Real.tanh (waveNumber wl * dep) := by
    rw [Real.tanh_eq_sinh_div_cosh]
    exact div_pos (Real.sinh_pos_iff.mpr (by positivity)) (Real.cosh_pos _)
  unfold angularFrequency
  exact Real.sqrt_pos.mpr (mul_pos (mul_pos hg hk) ht)

/-- Claim C1: at or below the surface the velocity query returns the
finite-depth linear-wave-theory velocity built from `k = 2π/λ` and
`ω = sqrt(g k tanh(k h))`; in particular at `t = 0`, `x = 0`, `y = 0` it
returns `(a g k / ω, 0)`. -/
theorem velocity_below_surface_formula (amp wl dep grav t x y : ℝ)
    (ha : 0 < amp) (hw : 0 < wl) (hd : 0 < dep) (hg : 0 < grav)
    (hy : y ≤ ((AiryWaves.init amp wl dep grav).update t).get_water_height x) :
    ((AiryWaves.init amp wl dep grav).update t).get_water_velocity x y =
        (amp * grav * waveNumber wl / angularFrequency wl dep grav *
            (Real.cosh (waveNumber wl * (y + dep)) /
              Real.cosh (waveNumber wl * dep)) *
            Real.cos (waveNumber wl * x - angularFrequency wl dep grav * t),
          amp * grav * waveNumber wl / angularFrequency wl dep grav *
            (Real.sinh (waveNumber wl * (y + dep)) /
              Real.cosh (waveNumber wl * dep)) *
            Real.sin (waveNumber wl * x - angularFrequency wl dep grav * t)) ∧
      (AiryWaves.init amp wl dep grav).get_water_velocity 0 0 =
        (amp * grav * waveNumber wl / angularFrequency wl dep grav, 0) := by
  constructor
  · exact static_get_water_velocity_of_le x y _ hy
  · have hy0 : (0 : ℝ) ≤
        static_get_water_height 0 (AiryWaves.init amp wl dep grav) := by
      simp [static_get_water_height, AiryWaves.init]
      linarith
    have hform := static_get_water_velocity_of_le 0 0
      (AiryWaves.init amp wl dep grav) hy0
    rw [AiryWaves.get_water_velocity, hform]
    simp [AiryWaves.init,
      div_self (Real.cosh_pos (waveNumber wl * dep)).ne']

/-- Witness for C1 with the default parameters at `t = 0`, `x = 0`, `y = 0`.
-/
theorem velocity_below_surface_formula_witness :
    (0 : ℝ) < 1 ∧
      (0 : ℝ) ≤
        ((AiryWaves.init 1 10 50 (981 / 100)).update 0).get_water_height 0 ∧
      (((AiryWaves.init 1 10 50 (981 / 100)).update 0).get_water_velocity 0 0 =
          (1 * (981 / 100) * waveNumber 10 /
              angularFrequency 10 50 (981 / 100) *
              (Real.cosh (waveNumber 10 * (0 + 50)) /
                Real.cosh (waveNumber 10 * 50)) *
              Real.cos (waveNumber 10 * 0 -
                angularFrequency 10 50 (981 / 100) * 0),
            1 * (981 / 100) * waveNumber 10 /
              angularFrequency 10 50 (981 / 100) *
              (Real.sinh (waveNumber 10 * (0 + 50)) /
                Real.cosh (waveNumber 10 * 50)) *
              Real.sin (waveNumber 10 * 0 -
                angularFrequency 10 50 (981 / 100) * 0)) ∧
        (AiryWaves.init 1 10 50 (981 / 100)).get_water_velocity 0 0 =
          (1 * (981 / 100) * waveNumber 10 /
              angularFrequency 10 50 (981 / 100), 0)) := by
  have hy : (0 : ℝ) ≤
      ((AiryWaves.init 1 10 50 (981 / 100)).update 0).get_water_height 0 := by
    norm_num [AiryWaves.get_water_height, static_get_water_height,
      AiryWaves.update, AiryWaves.init]
  exact ⟨by norm_num, hy,
    velocity_below_surface_formula 1 10 50 (981 / 100) 0 0 0
      (by norm_num) (by norm_num) (by norm_num) (by norm_num) hy⟩

/-- Claim C4 counterexample: construction with a non-positive amplitude does
not fail — the constructor performs no validation. -/
theorem construction_unvalidated_counterexample :
    (-1 : ℝ) ≤ 0 ∧
      AiryWaves.initE (-1) 10 50 (981 / 100) ≠
        Except.error WaveError.InvalidParameter := by
  refine ⟨by norm_num, ?_⟩
  unfold AiryWaves.initE
  rw [if_neg (by norm_num : (10 : ℝ) ≠ 0)]
  simp

/-- Claim C4 (amended): construction performs no parameter validation and
never fails with `InvalidParameter`; its only failure is the
`ZeroDivisionError` raised by `2 * np.pi / wavelength` when
`wavelength = 0`.  For any `wavelength ≠ 0` — in particular for all four
parameters strictly positive — it succeeds, computes `k` and `omega`, and
sets `t = 0`. -/
theorem construction_no_validation
    (amplitude wavelength water_depth gravity : ℝ) :
    (wavelength ≠ 0 →
        AiryWaves.initE amplitude wavelength water_depth gravity =
          Except.ok
            { a := amplitude
              wavelength := wavelength
              h := water_depth
              g := gravity
              k := waveNumber wavelength
              omega := angularFrequency wavelength water_depth gravity
              t := 0 }) ∧
      (wavelength = 0 →
        AiryWaves.initE amplitude wavelength water_depth gravity =
          Except.error WaveError.ZeroDivision) ∧
      AiryWaves.initE amplitude wavelength water_depth gravity ≠
        Except.error WaveError.InvalidParameter := by
  refine ⟨fun hwl => ?_, fun hwl => ?_, ?_⟩
  · unfold AiryWaves.initE
    rw [if_neg hwl]
    rfl
  · unfold AiryWaves.initE
    rw [if_pos hwl]
  · unfold AiryWaves.initE
    by_cases hwl : wavelength = 0 <;> simp [hwl]

/-- Witness for the amended C4: with the default parameters construction
succeeds with the computed fields, and with `wavelength = 0` it fails with
the division error. -/
theorem construction_no_validation_witness :
    (10 : ℝ) ≠ 0 ∧
      AiryWaves.initE 1 10 50 (981 / 100) =
        Except.ok
          { a := 1
            wavelength := 10
            h := 50
            g := 981 / 100
            k := waveNumber 10
            omega := angularFrequency 10 50 (981 / 100)
            t := 0 } ∧
      AiryWaves.initE 1 0 50 (981 / 100) =
        Except.error WaveError.ZeroDivision :=
  ⟨by norm_num,
    (construction_no_validation 1 10 50 (981 / 100)).1 (by norm_num),
    (construction_no_validation 1 0 50 (981 / 100)).2.1 rfl⟩

/-- Claim C8: `update` replaces the stored time unconditionally and leaves
every other field unchanged, and the two query methods leave the whole wave
state unchanged. -/
theorem time_only_mutable_state (w : AiryWaves) (t1 x y : ℝ) :
    (w.update t1).t = t1 ∧ (w.update t1).a = w.a ∧
      (w.update t1).wavelength = w.wavelength ∧ (w.update t1).h = w.h ∧
      (w.update t1).g = w.g ∧ (w.update t1).k = w.k ∧
      (w.update t1).omega = w.omega ∧
      (w.get_water_height_call x).2 = w ∧
      (w.get_water_velocity_call x y).2 = w :=
  ⟨rfl, rfl, rfl, rfl, rfl, rfl, rfl, rfl, rfl⟩

/-- Claim C2: for every wave and every point strictly above the instantaneous
free surface, the velocity query returns exactly `(0, 0)`. -/
theorem velocity_above_surface_zero (w : AiryWaves) (x y : ℝ)
    (hy : static_get_water_height x w < y) :
    w.get_water_velocity x y = (0, 0) := by
  simp [AiryWaves.get_water_velocity, static_get_water_velocity, if_pos hy]
  norm_num

/-- Witness for C2 at the default wave, `x = 0`, `y = 2` (the surface there
is at elevation 1). -/
theorem velocity_above_surface_zero_witness :
    static_get_water_height 0 sampleWave < 2 ∧
      sampleWave.get_water_velocity 0 2 = (0, 0) := by
  have hy : static_get_water_height 0 sampleWave < 2 := by
    norm_num [static_get_water_height, sampleWave, AiryWaves.init]
  exact ⟨hy, velocity_above_surface_zero sampleWave 0 2 hy⟩

/-- Claim C6: after `update t1`, the elevation at `x` is exactly
`a * cos(k*x - omega*t1)`; in particular the freshly constructed wave
(`t = 0`) has elevation `a` at `x = 0`. -/
theorem elevation_closed_form (amp wl dep grav t1 x : ℝ) :
    ((AiryWaves.init amp wl dep grav).update t1).get_water_height x =
        amp * Real.cos (waveNumber wl * x - angularFrequency wl dep grav * t1) ∧
      (AiryWaves.init amp wl dep grav).get_water_height 0 = amp := by
  constructor
  · rfl
  · simp [AiryWaves.get_water_height, static_get_water_height, AiryWaves.init]

/-- Claim C7: for every wave with positive amplitude, the elevation lies in
the closed interval `[-a, a]`. -/
theorem elevation_bounded (w : AiryWaves) (x : ℝ) (ha : 0 < w.a) :
    -w.a ≤ w.get_water_height x ∧ w.get_water_height x ≤ w.a := by
  have h1 : Real.cos (w.k * x - w.omega * w.t) ≤ 1 := Real.cos_le_one _
  have h2 : -1 ≤ Real.cos (w.k * x - w.omega * w.t) := Real.neg_one_le_cos _
  unfold AiryWaves.get_water_height static_get_water_height
  constructor <;> nlinarith

/-- Witness for C7 at the default wave and `x = 0`. -/
theorem elevation_bounded_witness :
    0 < sampleWave.a ∧
      (-sampleWave.a ≤ sampleWave.get_water_height 0 ∧
        sampleWave.get_water_height 0 ≤ sampleWave.a) := by
  have ha : 0 < sampleWave.a := by norm_num [sampleWave, AiryWaves.init]
  exact ⟨ha, elevation_bounded sampleWave 0 ha⟩

/-- The wavenumber of `deepWave` is `1`. -/
theorem deepWave_k : deepWave.k = 1 := by
  show waveNumber (2 * Real.pi) = 1
  unfold waveNumber
  exact div_self (by positivity)

/-- The angular frequency of `deepWave` is positive. -/
theorem deepWave_omega_pos : 0 < deepWave.omega := by
  show 0 < angularFrequency (2 * Real.pi) 51 (981 / 100)
  exact angularFrequency_pos _ _ _ (by positivity) (by norm_num) (by norm_num)

/-- The free-surface elevation of `deepWave` at `x = 0` (time `0`) is `1`. -/
theorem deepWave_height0 : static_get_water_height 0 deepWave = 1 := by
  have ha : deepWave.a = 1 := rfl
  have ht : deepWave.t = 0 := rfl
  unfold static_get_water_height
  rw [ha, ht]
  simp

/-- The relative depth of `deepWave` exceeds the threshold 50. -/
theorem deepWave_kh : 50 < deepWave.k * deepWave.h := by
  have hh : deepWave.h = 51 := rfl
  rw [deepWave_k, hh]
  norm_num

/-- `cosh 50 / cosh 51` is strictly larger than `exp (-1)`: the finite-depth
ratio at depth `51` does not coincide with the deep-water exponential. -/
theorem cosh_ratio_ne_exp : Real.exp (-1) < Real.cosh 50 / Real.cosh 51 := by
  rw [lt_div_iff₀ (Real.cosh_pos 51)]
  have e1 : Real.exp (-1) * Real.exp 51 = Real.exp 50 := by
    rw [← Real.exp_add]
    norm_num
  have e2 : Real.exp (-1) * Real.exp (-51) = Real.exp (-52) := by
    rw [← Real.exp_add]
    norm_num
  have e3 : Real.exp (-52) < Real.exp (-50) := Real.exp_lt_exp.mpr (by norm_num)
  rw [Real.cosh_eq, Real.cosh_eq]
  nlinarith [e1, e2, e3]

/-- Claim C3 counterexample: at `k*h = 51 > 50`, for the submerged point
`(0, -1)`, the velocity returned by the code is the finite-depth value, and
it differs from the deep-water asymptotic value `(a g k / ω) e^{k y} cos(...)`
claimed for that regime — the code has no deep-water branch. -/
theorem deep_water_branch_counterexample :
    50 < deepWave.k * deepWave.h ∧
      (-1 : ℝ) ≤ deepWave.get_water_height 0 ∧
      (deepWave.get_water_velocity 0 (-1)).1 ≠
        deepWave.a * deepWave.g * deepWave.k / deepWave.omega *
          Real.exp (deepWave.k * (-1)) *
          Real.cos (deepWave.k * 0 - deepWave.omega * deepWave.t) := by
  have ha : deepWave.a = 1 := rfl
  have hgv : deepWave.g = 981 / 100 := rfl
  have hh : deepWave.h = 51 := rfl
  have ht : deepWave.t = 0 := rfl
  have heta : deepWave.get_water_height 0 = 1 := deepWave_height0
  refine ⟨deepWave_kh, by rw [heta]; norm_num, ?_⟩
  have hy : (-1 : ℝ) ≤ static_get_water_height 0 deepWave := by
    rw [deepWave_height0]
    norm_num
  rw [AiryWaves.get_water_velocity, static_get_water_velocity_of_le 0 (-1)
    deepWave hy]
  rw [ha, hgv, hh, ht, deepWave_k]
  norm_num
  exact ⟨ne_of_gt cosh_ratio_ne_exp, deepWave_omega_pos.ne'⟩

/-- Claim C3 (amended): the velocity query has no deep-water branch; even
when `k*h` exceeds 50, a point at or below the surface gets the general
finite-depth form. -/
theorem velocity_no_deep_water_branch (w : AiryWaves) (x y : ℝ)
    (hkh : 50 < w.k * w.h) (hy : y ≤ static_get_water_height x w) :
    w.get_water_velocity x y =
      (w.a * w.g * w.k / w.omega *
          (Real.cosh (w.k * (y + w.h)) / Real.cosh (w.k * w.h)) *
          Real.cos (w.k * x - w.omega * w.t),
        w.a * w.g * w.k / w.omega *
          (Real.sinh (w.k * (y + w.h)) / Real.cosh (w.k * w.h)) *
          Real.sin (w.k * x - w.omega * w.t)) :=
  static_get_water_velocity_of_le x y w hy

/-- Witness for the amended C3 at the submerged origin of `deepWave`. -/
theorem velocity_no_deep_water_branch_witness :
    50 < deepWave.k * deepWave.h ∧
      (0 : ℝ) ≤ static_get_water_height 0 deepWave ∧
      deepWave.get_water_velocity 0 0 =
        (deepWave.a * deepWave.g * deepWave.k / deepWave.omega *
            (Real.cosh (deepWave.k * (0 + deepWave.h)) /
              Real.cosh (deepWave.k * deepWave.h)) *
            Real.cos (deepWave.k * 0 - deepWave.omega * deepWave.t),
          deepWave.a * deepWave.g * deepWave.k / deepWave.omega *
            (Real.sinh (deepWave.k * (0 + deepWave.h)) /
              Real.cosh (deepWave.k * deepWave.h)) *
            Real.sin (deepWave.k * 0 - deepWave.omega * deepWave.t)) := by
  have hy : (0 : ℝ) ≤ static_get_water_height 0 deepWave := by
    rw [deepWave_height0]
    norm_num
  exact ⟨deepWave_kh, hy,
    velocity_no_deep_water_branch deepWave 0 0 deepWave_kh hy⟩

/-- Claim C10: the field is spatially periodic with period `wavelength` and
temporally periodic with period `2π/ω`, for both the elevation and the
velocity queries. -/
theorem wave_field_periodic (amp wl dep grav t x y : ℝ)
    (hw : 0 < wl) (hd : 0 < dep) (hg : 0 < grav) :
    ((AiryWaves.init amp wl dep grav).update t).get_water_height (x + wl) =
        ((AiryWaves.init amp wl dep grav).update t).get_water_height x ∧
      ((AiryWaves.init amp wl dep grav).update
            (t + 2 * Real.pi / angularFrequency wl dep grav)).get_water_height
          x =
        ((AiryWaves.init amp wl dep grav).update t).get_water_height x ∧
      ((AiryWaves.init amp wl dep grav).update
            (t + 2 * Real.pi /
              angularFrequency wl dep grav)).get_water_velocity x y =
        ((AiryWaves.init amp wl dep grav).update t).get_water_velocity x y :=
  by
  have hwne : wl ≠ 0 := ne_of_gt hw
  have homne : angularFrequency wl dep grav ≠ 0 :=
    ne_of_gt (angularFrequency_pos wl dep grav hw hd hg)
  have hargx : waveNumber wl * (x + wl) - angularFrequency wl dep grav * t =
      waveNumber wl * x - angularFrequency wl dep grav * t + 2 * Real.pi := by
    unfold waveNumber
    field_simp
    ring
  have hargt : ∀ z : ℝ, waveNumber wl * z - angularFrequency wl dep grav *
      (t + 2 * Real.pi / angularFrequency wl dep grav) =
      waveNumber wl * z - angularFrequency wl dep grav * t - 2 * Real.pi := by
    intro z
    field_simp
    ring
  refine ⟨?_, ?_, ?_⟩
  · simp only [AiryWaves.get_water_height, static_get_water_height,
      AiryWaves.update, AiryWaves.init]
    rw [hargx, Real.cos_add_two_pi]
  · simp only [AiryWaves.get_water_height, static_get_water_height,
      AiryWaves.update, AiryWaves.init]
    rw [hargt x, Real.cos_sub_two_pi]
  · simp only [AiryWaves.get_water_velocity, static_get_water_velocity,
      static_get_water_height, AiryWaves.update, AiryWaves.init]
    rw [hargt x, Real.cos_sub_two_pi, Real.sin_sub_two_pi]

/-- Witness for C10 with the default parameters at `t = 0`, `x = 0`, `y = 0`.
-/
theorem wave_field_periodic_witness :
    (0 : ℝ) < 10 ∧ (0 : ℝ) < 50 ∧ (0 : ℝ) < 981 / 100 ∧
      (((AiryWaves.init 1 10 50 (981 / 100)).update 0).get_water_height
            (0 + 10) =
          ((AiryWaves.init 1 10 50 (981 / 100)).update 0).get_water_height 0 ∧
        ((AiryWaves.init 1 10 50 (981 / 100)).update
              (0 + 2 * Real.pi /
                angularFrequency 10 50 (981 / 100))).get_water_height 0 =
          ((AiryWaves.init 1 10 50 (981 / 100)).update 0).get_water_height 0 ∧
        ((AiryWaves.init 1 10 50 (981 / 100)).update
              (0 + 2 * Real.pi /
                angularFrequency 10 50 (981 / 100))).get_water_velocity 0 0 =
          ((AiryWaves.init 1 10 50 (981 / 100)).update 0).get_water_velocity
            0 0) :=
  ⟨by norm_num, by norm_num, by norm_num,
    wave_field_periodic 1 10 50 (981 / 100) 0 0 0
      (by norm_num) (by norm_num) (by norm_num)⟩

/-- Claim C5: the force estimation fails with `InvalidArgument` exactly when
`dt = 0`, and otherwise returns `mass * (VelocityAt(x,y,t+dt) -
VelocityAt(x,y,t)) / dt` at the stored time `t`. -/
theorem forceOnMass_finite_difference (w : AiryWaves) (x y mass dt : ℝ) :
    (forceOnMass w x y mass dt = Except.error WaveError.InvalidArgument ↔
        dt = 0) ∧
      (dt ≠ 0 →
        forceOnMass w x y mass dt =
          Except.ok
            (mass * ((velocityAt w x y (w.t + dt)).1 -
                (velocityAt w x y w.t).1) / dt,
              mass * ((velocityAt w x y (w.t + dt)).2 -
                (velocityAt w x y w.t).2) / dt)) := by
  by_cases hdt : dt = 0 <;> simp [forceOnMass, hdt]

/-- Witness for C5 at the default wave with `mass = 1`, `dt = 1`. -/
theorem forceOnMass_finite_difference_witness :
    (1 : ℝ) ≠ 0 ∧
      forceOnMass sampleWave 0 0 1 1 =
        Except.ok
          (1 * ((velocityAt sampleWave 0 0 (sampleWave.t + 1)).1 -
              (velocityAt sampleWave 0 0 sampleWave.t).1) / 1,
            1 * ((velocityAt sampleWave 0 0 (sampleWave.t + 1)).2 -
              (velocityAt sampleWave 0 0 sampleWave.t).2) / 1) :=
  ⟨one_ne_zero,
    (forceOnMass_finite_difference sampleWave 0 0 1 1).2 one_ne_zero⟩

/-- Claim C9 counterexample: with the `20 × 3` grid over `cexWave` the
lattice point `(i, j) = (0, 1)` lies exactly on the free surface
(`y = η = 1`); it is not strictly below the surface, yet the drawer emits an
arrow for it, because the code draws on `y <= η`. -/
theorem arrow_on_surface_counterexample :
    (cexDrawer.latticeX 0, cexDrawer.latticeY 1) ∈ cexDrawer.drawnArrows ∧
      ¬cexDrawer.latticeY 1 <
        cexDrawer.wave.get_water_height (cexDrawer.latticeX 0) := by
  have hx : cexDrawer.latticeX 0 = 0 := by
    simp [cexDrawer, AiryWavesDrawer.init, AiryWavesDrawer.latticeX]
  have hy1 : cexDrawer.latticeY 1 = 1 := by
    simp [cexDrawer, AiryWavesDrawer.init, AiryWavesDrawer.latticeY, cexWave,
      AiryWaves.init]
    norm_num
  have heta : cexDrawer.wave.get_water_height (cexDrawer.latticeX 0) = 1 := by
    rw [hx]
    show cexWave.get_water_height 0 = 1
    unfold AiryWaves.get_water_height static_get_water_height cexWave
      AiryWaves.init
    simp
  have hcond : cexDrawer.latticeY 1 ≤
      cexDrawer.wave.get_water_height (cexDrawer.latticeX 0) := by
    rw [hy1, heta]
  constructor
  · unfold AiryWavesDrawer.drawnArrows
    refine List.mem_flatMap.mpr ⟨0, List.mem_range.mpr ?_, ?_⟩
    · show 0 < cexDrawer.grid_x
      norm_num [cexDrawer, AiryWavesDrawer.init]
    · refine List.mem_filterMap.mpr ⟨1, List.mem_range.mpr ?_, ?_⟩
      · show 1 < cexDrawer.grid_y
        norm_num [cexDrawer, AiryWavesDrawer.init]
      · rw [if_pos hcond]
  · rw [hy1, heta]
    exact lt_irrefl 1

/-- Claim C9 (amended): a lattice point of the velocity grid gets an arrow
if and only if it lies at or below the instantaneous free surface; only
points strictly above the surface are skipped. -/
theorem arrows_drawn_iff_at_or_below (d : AiryWavesDrawer) (i j : ℕ)
    (hi : i < d.grid_x) (hj : j < d.grid_y) :
    (d.latticeX i, d.latticeY j) ∈ d.drawnArrows ↔
      d.latticeY j ≤ d.wave.get_water_height (d.latticeX i) := by
  unfold AiryWavesDrawer.drawnArrows
  constructor
  · intro hmem
    obtain ⟨i1, hi1, hmem1⟩ := List.mem_flatMap.mp hmem
    obtain ⟨j1, hj1, heq⟩ := List.mem_filterMap.mp hmem1
    by_cases hc : d.latticeY j1 ≤ d.wave.get_water_height (d.latticeX i1)
    · rw [if_pos hc] at heq
      have h2 := Option.some.inj heq
      have hxe : d.latticeX i1 = d.latticeX i := congrArg Prod.fst h2
      have hye : d.latticeY j1 = d.latticeY j := congrArg Prod.snd h2
      rw [← hxe, ← hye]
      exact hc
    · rw [if_neg hc] at heq
      exact absurd heq (by simp)
  · intro hle
    exact List.mem_flatMap.mpr ⟨i, List.mem_range.mpr hi,
      List.mem_filterMap.mpr ⟨j, List.mem_range.mpr hj, by rw [if_pos hle]⟩⟩

/-- Witness for the amended C9 at lattice point `(0, 1)` of `cexDrawer`. -/
theorem arrows_drawn_iff_at_or_below_witness :
    0 < cexDrawer.grid_x ∧ 1 < cexDrawer.grid_y ∧
      ((cexDrawer.latticeX 0, cexDrawer.latticeY 1) ∈ cexDrawer.drawnArrows ↔
        cexDrawer.latticeY 1 ≤
          cexDrawer.wave.get_water_height (cexDrawer.latticeX 0)) := by
  have hgx : 0 < cexDrawer.grid_x := by
    norm_num [cexDrawer, AiryWavesDrawer.init]
  have hgy : 1 < cexDrawer.grid_y := by
    norm_num [cexDrawer, AiryWavesDrawer.init]
  exact ⟨hgx, hgy, arrows_drawn_iff_at_or_below cexDrawer 0 1 hgx hgy⟩

end AiryWavesSpec
